import Mathlib

/-!
Verification of the jstdata / jefferson_street_python_api client library.

The development shallowly embeds the two Python modules:
  * `jstdata/utils.py` — date normalization (`date_handler`) and the output
    formatter (`format_and_print`, `df_to_csv_string`);
  * `jstdata/client.py` and `jefferson_street_python_api/client.py` — the
    data-access façade (`get_metrics`, `get_metric_series`,
    `get_metric_observations`, `get_countries`, credential validation).

Machine-level concerns that the claims do not touch (pandas numeric dtype
coercion, Unicode `\uXXXX` escaping in `json.dumps`) are noted at the
definitions that abstract them.
-/

deriving instance DecidableEq for Except

namespace JST

/-- A scalar JSON value as it occurs in a record field (spec §3: string,
number, boolean, or null).  Numbers are modelled as integers. -/
inductive JVal where
  | null
  | boolean (b : Bool)
  | num (n : Int)
  | str (s : String)
deriving DecidableEq, Repr

/-- A record: an ordered mapping from field name to scalar value
(a Python `dict` preserving insertion order). -/
abbrev Record := List (String × JVal)

/-! ## JSON serialization (`json.dumps(response_data)` in `format_and_print`)

`json.dumps` on a list of flat records prints `[{"k": v, "k2": v2}, ...]`
with `", "` and `": "` separators.  The escaper covers the JSON-special
characters `"` and `\`; `json.dumps`'s additional `\uXXXX` escaping of
control and non-ASCII characters changes only the byte form, not the
parsed value, so it is not tracked.  `parseRecords` is a prefix-consuming
parser standing in for `json.loads` on this fragment. -/

/-- The decimal digit character for `d < 10`. -/
def digitChar (d : Nat) : Char := Char.ofNat (48 + d)

/-- Decimal digit characters of `n`, most significant first (Python `str(n)`
for a nonnegative integer). -/
def natChars (n : Nat) : List Char :=
  if n = 0 then ['0'] else ((Nat.digits 10 n).map digitChar).reverse

/-- Python `str(i)` for an integer: optional minus sign, then digits. -/
def intChars (i : Int) : List Char :=
  if i < 0 then '-' :: natChars i.natAbs else natChars i.natAbs

/-- Escape the JSON-special characters of a string body. -/
def jsonEscape : List Char → List Char
  | [] => []
  | c :: cs =>
    if c = '"' ∨ c = '\\' then '\\' :: c :: jsonEscape cs else c :: jsonEscape cs

/-- `json.dumps` of one scalar value. -/
def dumpJVal : JVal → List Char
  | .null => ['n', 'u', 'l', 'l']
  | .boolean true => ['t', 'r', 'u', 'e']
  | .boolean false => ['f', 'a', 'l', 's', 'e']
  | .num n => intChars n
  | .str s => '"' :: (jsonEscape s.data ++ ['"'])

/-- One `"key": value` entry of a dumped object. -/
def dumpPairEntry (kv : String × JVal) : List Char :=
  '"' :: (jsonEscape kv.1.data ++ ['"', ':', ' '] ++ dumpJVal kv.2)

/-- The remaining entries of a dumped object, each preceded by `", "`. -/
def dumpPairsTail : List (String × JVal) → List Char
  | [] => []
  | kv :: kvs => ',' :: ' ' :: (dumpPairEntry kv ++ dumpPairsTail kvs)

/-- `json.dumps` of one record (a JSON object in brace delimiters). -/
def dumpRecordChars : Record → List Char
  | [] => ['\x7b', '\x7d']
  | kv :: kvs => '\x7b' :: (dumpPairEntry kv ++ (dumpPairsTail kvs ++ ['\x7d']))

/-- The remaining records of the dumped array, each preceded by `", "`. -/
def dumpRecordsTail : List Record → List Char
  | [] => []
  | r :: rs => ',' :: ' ' :: (dumpRecordChars r ++ dumpRecordsTail rs)

/-- `json.dumps` of the full record list (a JSON array). -/
def dumpRecordsChars : List Record → List Char
  | [] => ['[', ']']
  | r :: rs => '[' :: (dumpRecordChars r ++ (dumpRecordsTail rs ++ [']']))

/-- `json.dumps(response_data)`: the string echoed by the `json` format. -/
def dumpRecords (rs : List Record) : String := ⟨dumpRecordsChars rs⟩

/-- Is `c` a decimal digit character? -/
def isDigitChar (c : Char) : Bool := decide (48 ≤ c.toNat) && decide (c.toNat ≤ 57)

/-- The digit value of a digit character. -/
def charDigit (c : Char) : Nat := c.toNat - 48

/-- Value of a most-significant-first digit character list. -/
def digitsToNat (cs : List Char) : Nat :=
  cs.foldl (fun a c => a * 10 + charDigit c) 0

/-- Does the input NOT start with a digit (so a preceding number literal
ends before it)? -/
def headNonDigit : List Char → Bool
  | [] => true
  | c :: _ => !isDigitChar c

/-- Parse a leading integer literal. -/
def parseNum (cs : List Char) : Option (Int × List Char) :=
  match cs with
  | [] => none
  | c :: rest =>
    if c = '-' then
      if (rest.takeWhile isDigitChar).isEmpty then none
      else some (-(digitsToNat (rest.takeWhile isDigitChar) : Int),
        rest.dropWhile isDigitChar)
    else
      if ((c :: rest).takeWhile isDigitChar).isEmpty then none
      else some ((digitsToNat ((c :: rest).takeWhile isDigitChar) : Int),
        (c :: rest).dropWhile isDigitChar)

/-- Parse a string body up to its closing quote, undoing escapes. -/
def parseStrBody : List Char → Option (List Char × List Char)
  | [] => none
  | c :: rest =>
    if c = '"' then some ([], rest)
    else if c = '\\' then
      match rest with
      | [] => none
      | d :: rest2 => (parseStrBody rest2).map (fun p => (d :: p.1, p.2))
    else (parseStrBody rest).map (fun p => (c :: p.1, p.2))

/-- Expect the exact token `ts` at the front of the input. -/
def expectChars : List Char → List Char → Option (List Char)
  | [], cs => some cs
  | _ :: _, [] => none
  | t :: ts, c :: cs => if c = t then expectChars ts cs else none

/-- Parse a leading JSON string literal. -/
def parseJString (cs : List Char) : Option (String × List Char) :=
  match cs with
  | [] => none
  | c :: rest =>
    if c = '"' then (parseStrBody rest).map (fun p => (⟨p.1⟩, p.2)) else none

/-- Parse a leading scalar JSON value. -/
def parseJVal (cs : List Char) : Option (JVal × List Char) :=
  match cs with
  | [] => none
  | c :: rest =>
    if isDigitChar c || c = '-' then
      (parseNum (c :: rest)).map (fun p => (JVal.num p.1, p.2))
    else if c = '"' then (parseStrBody rest).map (fun p => (JVal.str ⟨p.1⟩, p.2))
    else if c = 'n' then (expectChars ['u', 'l', 'l'] rest).map (fun r => (JVal.null, r))
    else if c = 't' then
      (expectChars ['r', 'u', 'e'] rest).map (fun r => (JVal.boolean true, r))
    else if c = 'f' then
      (expectChars ['a', 'l', 's', 'e'] rest).map (fun r => (JVal.boolean false, r))
    else none

/-- Parse one `"key": value` entry. -/
def parsePairEntry (cs : List Char) : Option ((String × JVal) × List Char) :=
  match parseJString cs with
  | none => none
  | some (k, r1) =>
    match expectChars [':', ' '] r1 with
    | none => none
    | some r2 => (parseJVal r2).map (fun p => ((k, p.1), p.2))

/-- Parse the remaining entries of an object until its closing brace. -/
def parsePairsLoop : Nat → List Char → Option (List (String × JVal) × List Char)
  | 0, _ => none
  | _ + 1, [] => none
  | fuel + 1, c :: rest =>
    if c = '\x7d' then some ([], rest)
    else if c = ',' then
      match rest with
      | [] => none
      | d :: r1 =>
        if d = ' ' then
          match parsePairEntry r1 with
          | none => none
          | some (kv, r2) => (parsePairsLoop fuel r2).map (fun p => (kv :: p.1, p.2))
        else none
    else none

/-- Parse one JSON object as a record. -/
def parseRecordChars (cs : List Char) : Option (Record × List Char) :=
  match cs with
  | [] => none
  | c :: rest =>
    if c = '\x7b' then
      match rest with
      | [] => none
      | d :: r1 =>
        if d = '\x7d' then some ([], r1)
        else
          match parsePairEntry (d :: r1) with
          | none => none
          | some (kv, r2) =>
            (parsePairsLoop (r2.length + 1) r2).map (fun p => (kv :: p.1, p.2))
    else none

/-- Parse the remaining records of the array until its closing bracket. -/
def parseRecordsLoop : Nat → List Char → Option (List Record × List Char)
  | 0, _ => none
  | _ + 1, [] => none
  | fuel + 1, c :: rest =>
    if c = ']' then some ([], rest)
    else if c = ',' then
      match rest with
      | [] => none
      | d :: r1 =>
        if d = ' ' then
          match parseRecordChars r1 with
          | none => none
          | some (r, r2) => (parseRecordsLoop fuel r2).map (fun p => (r :: p.1, p.2))
        else none
    else none

/-- Parse a JSON array of records. -/
def parseRecordsChars (cs : List Char) : Option (List Record × List Char) :=
  match cs with
  | [] => none
  | c :: rest =>
    if c = '[' then
      match rest with
      | [] => none
      | d :: r1 =>
        if d = ']' then some ([], r1)
        else
          match parseRecordChars (d :: r1) with
          | none => none
          | some (r, r2) =>
            (parseRecordsLoop (r2.length + 1) r2).map (fun p => (r :: p.1, p.2))
    else none

/-- Parse a record list from a produced JSON string (stand-in for
`json.loads` on the fragment `json.dumps` emits here). -/
def parseRecords (s : String) : Option (List Record × List Char) :=
  parseRecordsChars s.data

/-! ## CSV via pandas (`df_to_csv_string(pd.DataFrame(response_data))`) -/

/-- The keys of a record, in field order. -/
def recordKeys (r : Record) : List String := r.map Prod.fst

/-- Append a key as a new column unless already present. -/
def insertKey (cols : List String) (k : String) : List String :=
  if k ∈ cols then cols else cols ++ [k]

/-- The column list `pd.DataFrame` builds from a list of dicts: the union
of the records' keys, in order of first appearance. -/
def pandasColumns (rs : List Record) : List String :=
  rs.foldl (fun cols r => (recordKeys r).foldl insertKey cols) []

/-- Minimal CSV quoting, as `to_csv` applies when a field contains a
separator, quote, or line break. -/
def csvQuote (s : String) : String :=
  if s.data.any (fun c => (c == ',') || (c == '"') || (c == '\n') || (c == '\r')) then
    ⟨'"' :: s.data.foldr (fun c acc => if c = '"' then '"' :: '"' :: acc else c :: acc) ['"']⟩
  else s

/-- How a scalar prints in an object-dtype DataFrame cell (`NaN`, the fill
for a missing entry, prints as the empty field).  pandas' numeric dtype
coercion (a numeric column that also holds a missing entry turns into
float) is outside the scalar model, so the CSV theorems quantify over
string-valued records. -/
def csvCell : JVal → String
  | .null => ""
  | .boolean true => "True"
  | .boolean false => "False"
  | .num n => ⟨intChars n⟩
  | .str s => s

/-- The rendered row of record `r` under column list `cols`: the record's
value where present, an empty cell where the record lacks the column. -/
def rowCells (cols : List String) (r : Record) : List String :=
  cols.map (fun c => ((r.lookup c).map csvCell).getD "")

/-- `df_to_csv_string(pd.DataFrame(response_data))` (`jstdata/utils.py`
lines 18–21 with the call at line 27): header line of the DataFrame's
columns, then one line per record. -/
def df_to_csv_string (rs : List Record) : String :=
  String.intercalate "," ((pandasColumns rs).map csvQuote) ++ "\n" ++
    String.join (rs.map (fun r =>
      String.intercalate "," ((rowCells (pandasColumns rs) r).map csvQuote) ++ "\n"))

/-- Following the claim's words, for comparison with `df_to_csv_string`:
a CSV whose header is the first record's keys only, every later record
cut down to that schema (extra values dropped). -/
def csv_first_record_schema (rs : List Record) : String :=
  String.intercalate "," ((recordKeys (rs.headD [])).map csvQuote) ++ "\n" ++
    String.join (rs.map (fun r =>
      String.intercalate "," ((rowCells (recordKeys (rs.headD [])) r).map csvQuote) ++ "\n"))

/-! ## `format_and_print` (`jstdata/utils.py`, lines 24–34) -/

/-- What one `click.echo` call writes: a plain string (`json`/`csv`), or
the table `tabulate` renders from the structured arguments the code hands
it (`pretty`; the text alignment is the external library's concern, the
structure — rows and headers — is the code's). -/
inductive Echoed where
  | text (s : String)
  | tabulatePairs (rows : List (String × JVal)) (headers : List String)
  | tabulateDicts (rows : List Record)
deriving DecidableEq, Repr

/-- `format_and_print(response_data, format)`.  The if/elif chain has no
else branch: a format value outside json/csv/pretty echoes nothing and
raises nothing, modelled as `none`. -/
def format_and_print (response_data : List Record) (format : String) :
    Option Echoed :=
  if format = "json" then some (.text (dumpRecords response_data))
  else if format = "csv" then some (.text (df_to_csv_string response_data))
  else if format = "pretty" then
    if response_data.length = 1 then
      some (.tabulatePairs (response_data.headD []) ["key", "value"])
    else some (.tabulateDicts response_data)
  else none

/-! ## Data-access façade (`jstdata/client.py`,
`jefferson_street_python_api/client.py`) -/

/-- A JSON value as returned by `response.json()` (full shape, for the
envelope). -/
inductive Json where
  | null
  | boolean (b : Bool)
  | num (n : Int)
  | str (s : String)
  | arr (items : List Json)
  | obj (fields : List (String × Json))

/-- The Python exceptions the façade code can raise.  The spec's error
names map onto these: `CredentialMissingError` is the code's
`ApiKeyNotSetError`, `InvalidCredentialError` is `InvalidApiKeyError`,
`TransportError` is the connection-level error `requests` raises when no
response arrives, and the `MalformedResponseError` of a `records`-less
envelope is the `KeyError`/`TypeError` of the subscript
`response["records"]`. -/
inductive PyErr where
  | httpError (status : Nat) (endpoint : String)
  | connectionError
  | invalidInputError (status : Nat) (endpoint : String)
  | keyError (key : String)
  | typeError
  | nameError (name : String)
  | apiKeyNotSetError
  | invalidApiKeyError
deriving DecidableEq, Repr

/-- One GET request as issued: endpoint and query parameters. -/
structure Request where
  endpoint : String
  params : List (String × Json)

/-- The provider's behavior for one GET: a status+body response, or a
connection-level failure producing no response at all. -/
inductive TransportResult where
  | response (status : Nat) (body : Json)
  | failure

/-- A provider: maps each issued request to its outcome. -/
def Transport : Type := String → List (String × Json) → TransportResult

/-- `JeffersonStreetClient._make_request`: GET the endpoint, then
`raise_for_status()` (an `HTTPError` for a 4xx/5xx status), then
`.json()`.  The second component records the requests issued. -/
def make_request (t : Transport) (endpoint : String)
    (params : List (String × Json)) : Except PyErr Json × List Request :=
  (match t endpoint params with
   | .failure => .error .connectionError
   | .response status body =>
     if 400 ≤ status ∧ status < 600 then .error (.httpError status endpoint)
     else .ok body,
   [⟨endpoint, params⟩])

/-- Python subscripting `j[k]`: `KeyError` on a missing key, `TypeError`
when the value is not an object. -/
def pyIndex (j : Json) (k : String) : Except PyErr Json :=
  match j with
  | .obj fields =>
    match fields.lookup k with
    | some v => .ok v
    | none => .error (.keyError k)
  | _ => .error .typeError

/-- The `except requests.exceptions.HTTPError` handler of
`get_metric_series` / `get_countries`: an `HTTPError` becomes
`InvalidInputError` (whose message wraps the error text, hence the status
and the request's URL); every other outcome passes through. -/
def catchHttp : Except PyErr Json → Except PyErr Json
  | .error (.httpError st ep) => .error (.invalidInputError st ep)
  | r => r

/-- `JeffersonStreetClient.get_metrics` (`jstdata/client.py` lines 42–61):
no try/except around the request — transport errors escape raw — then
`response["records"]`. -/
def get_metrics (t : Transport) (limit offset : Int)
    (order_by sort_order : String) : Except PyErr Json × List Request :=
  let r := make_request t "metric"
    [("limit", .num limit), ("offset", .num offset),
     ("order_by", .str order_by), ("sort_order", .str sort_order)]
  (r.1.bind (fun body => pyIndex body "records"), r.2)

/-- `get_metric_series` (lines 63–87): wraps `HTTPError` in
`InvalidInputError`, then `response["records"]`. -/
def get_metric_series (t : Transport) (metric : String) (limit offset : Int)
    (order_by sort_order : String) : Except PyErr Json × List Request :=
  let r := make_request t "metric/series"
    [("metric", .str metric), ("limit", .num limit), ("offset", .num offset),
     ("order_by", .str order_by), ("sort_order", .str sort_order)]
  ((catchHttp r.1).bind (fun body => pyIndex body "records"), r.2)

/-- `get_countries` (lines 186–191): same shape as `get_metric_series`. -/
def get_countries (t : Transport) (limit offset : Int) (sort_order : String) :
    Except PyErr Json × List Request :=
  let r := make_request t "reference/geo/countries"
    [("limit", .num limit), ("offset", .num offset),
     ("sort_order", .str sort_order)]
  ((catchHttp r.1).bind (fun body => pyIndex body "records"), r.2)

/-- Python name resolution in a function body: a name not bound in the
scope raises `NameError`. -/
def localName (scope : List (String × Json)) (x : String) : Except PyErr Json :=
  match scope.lookup x with
  | some v => .ok v
  | none => .error (.nameError x)

/-- Build a params dict `{n1: value-of-n1, ...}` by resolving each name
left to right in the given scope; the first unresolvable name raises. -/
def buildParams (scope : List (String × Json)) (names : List String) :
    Except PyErr (List (String × Json)) :=
  match names with
  | [] => .ok []
  | n :: rest =>
    (localName scope n).bind fun v =>
      (buildParams scope rest).map fun ps => (n, v) :: ps

/-- The local scope of `get_metric_observations`: exactly its parameters.
The name `metric` is bound neither here nor at module scope. -/
def observationsScope (series : List String) (observation_type : String)
    (limit offset : Int) (order_by sort_order : String) (expanded : Bool)
    (start_date end_date : Option String) : List (String × Json) :=
  [("series", .arr (series.map .str)),
   ("observation_type", .str observation_type),
   ("limit", .num limit), ("offset", .num offset),
   ("order_by", .str order_by), ("sort_order", .str sort_order),
   ("expanded", .boolean expanded),
   ("start_date", (start_date.map Json.str).getD .null),
   ("end_date", (end_date.map Json.str).getD .null)]

/-- `get_metric_observations` (lines 89–118): its request expression is
`{"metric": metric, "limit": limit, "offset": offset, "order_by":
order_by, "sort_order": sort_order}`, and `metric` is an unbound name, so
building the params dict raises `NameError` before any request is made
(the surrounding `except` clause catches only `HTTPError`). -/
def get_metric_observations (t : Transport) (series : List String)
    (observation_type : String) (limit offset : Int)
    (order_by sort_order : String) (expanded : Bool)
    (start_date end_date : Option String) : Except PyErr Json × List Request :=
  match buildParams
      (observationsScope series observation_type limit offset order_by
        sort_order expanded start_date end_date)
      ["metric", "limit", "offset", "order_by", "sort_order"] with
  | .error e => (.error e, [])
  | .ok params =>
    let r := make_request t "metric/series" params
    ((catchHttp r.1).bind (fun body => pyIndex body "records"), r.2)

/-- `validate_api_key` (`jefferson_street_python_api/client.py` lines
19–24): raises `ApiKeyNotSetError` only when the key is `None`; the
`InvalidApiKeyError` branch sits under `if False:` and is never taken. -/
def validate_api_key (api_key : Option String) : Except PyErr Unit :=
  match api_key with
  | none => .error .apiKeyNotSetError
  | some _ => .ok ()

/-- `JeffersonStreetClient._validate_api_key` (`jstdata/client.py` lines
28–34): `None` raises `ApiKeyNotSetError`; any present string (the empty
string included) proceeds to the heartbeat liveness check, where a
non-"ok" status raises `InvalidApiKeyError`. -/
def validate_api_key_jst (t : Transport) (api_key : Option String) :
    Except PyErr Unit × List Request :=
  match api_key with
  | none => (.error .apiKeyNotSetError, [])
  | some _ =>
    let r := make_request t "heartbeat" []
    match r.1 with
    | .error e => (.error e, r.2)
    | .ok body =>
      match pyIndex body "status" with
      | .error e => (.error e, r.2)
      | .ok (.str s) =>
        if s = "ok" then (.ok (), r.2) else (.error .invalidApiKeyError, r.2)
      | .ok _ => (.error .invalidApiKeyError, r.2)

/-- A provider that always answers with the given status and body. -/
def constTransport (status : Nat) (body : Json) : Transport :=
  fun _ _ => .response status body

/-! ## `date_handler` (`jstdata/utils.py`, lines 7–15)

```python
def date_handler(date_str):
    if len(date_str) in (10,11): # YYYY-MM-DD or unix timestamp
        return date_str
    elif len(date_str) == 4: # year
        return f"{date_str}-01-01"
    elif len(date_str) == 7: # year-month
        return f"{date_str}-01"
    else:
        raise ValueError(f"Invalid date format: {date_str}")
```
The `ValueError` is the code's realization of the spec's
`InvalidDateFormatError`; the `Except.error` payload is its message. -/
def date_handler (date_str : String) : Except String String :=
  if date_str.length = 10 ∨ date_str.length = 11 then .ok date_str
  else if date_str.length = 4 then .ok (date_str ++ "-01-01")
  else if date_str.length = 7 then .ok (date_str ++ "-01")
  else .error ("Invalid date format: " ++ date_str)

/-- The spec's length-keyed reference definition of `normalize_date`
(spec §4.2), stated in the spec's own case order, for comparison with
the code's `date_handler`. -/
def normalize_date_ref (s : String) : Except String String :=
  if s.length = 10 then .ok s
  else if s.length = 11 then .ok s
  else if s.length = 4 then .ok (s ++ "-01-01")
  else if s.length = 7 then .ok (s ++ "-01")
  else .error ("Invalid date format: " ++ s)

/-- C6: `date_handler` equals the length-keyed reference definition
`normalize_date_ref`: length 10/11 inputs pass through unchanged, length 4
gains "-01-01", length 7 gains "-01", and every other length fails with the
`InvalidDateFormatError` message carrying the original string; in particular
it fails exactly when the length is outside {4, 7, 10, 11}, and the five
concrete examples of the spec evaluate as stated. -/
theorem date_handler_matches_reference :
    (∀ s : String, date_handler s = normalize_date_ref s)
    ∧ (∀ s : String, (∃ e, date_handler s = .error e)
        ↔ (s.length ≠ 4 ∧ s.length ≠ 7 ∧ s.length ≠ 10 ∧ s.length ≠ 11))
    ∧ (∀ s : String, date_handler s = .error ("Invalid date format: " ++ s)
        ∨ ∃ r, date_handler s = .ok r)
    ∧ date_handler "2024" = .ok "2024-01-01"
    ∧ date_handler "2024-05" = .ok "2024-05-01"
    ∧ date_handler "2024-05-13" = .ok "2024-05-13"
    ∧ date_handler "16840000000" = .ok "16840000000"
    ∧ date_handler "24" = .error "Invalid date format: 24" := by
  refine ⟨?_, ?_, ?_, by decide, by decide, by decide, by decide, by decide⟩
  · intro s
    unfold date_handler normalize_date_ref
    split_ifs <;> first | rfl | omega
  · intro s
    unfold date_handler
    split_ifs with h1 h2 h3
    · exact ⟨(by rintro ⟨e, he⟩; cases he), (by intro hc; exfalso; omega)⟩
    · exact ⟨(by rintro ⟨e, he⟩; cases he), (by intro hc; exfalso; omega)⟩
    · exact ⟨(by rintro ⟨e, he⟩; cases he), (by intro hc; exfalso; omega)⟩
    · exact ⟨fun _ => by omega, fun _ => ⟨_, rfl⟩⟩
  · intro s
    unfold date_handler
    split_ifs <;> first | exact .inr ⟨_, rfl⟩ | exact .inl rfl

/-- C10: every accepted input of `date_handler` maps to a string of length
10 or 11, hence `date_handler` is idempotent on accepted inputs:
a second application returns the same string unchanged. -/
theorem date_handler_idempotent (s r : String) (h : date_handler s = .ok r) :
    (r.length = 10 ∨ r.length = 11) ∧ date_handler r = .ok r := by
  have h6 : ("-01-01" : String).length = 6 := by decide
  have h3len : ("-01" : String).length = 3 := by decide
  have hlen : r.length = 10 ∨ r.length = 11 := by
    unfold date_handler at h
    split_ifs at h with h1 h2 h3
    · injection h with h'; subst h'; exact h1
    · injection h with h'
      subst h'
      left
      rw [String.length_append, h6, h2]
    · injection h with h'
      subst h'
      left
      rw [String.length_append, h3len, h3]
  refine ⟨hlen, ?_⟩
  unfold date_handler
  rw [if_pos hlen]

/-- Witness for C10 at the concrete input "2024" (accepted, mapping to
"2024-01-01", which is a fixed point of `date_handler`). -/
theorem date_handler_idempotent_witness :
    ("2024-01-01".length = 10 ∨ "2024-01-01".length = 11)
    ∧ date_handler "2024-01-01" = .ok "2024-01-01" :=
  date_handler_idempotent "2024" "2024-01-01" (by decide)

/-! ## Decimal digit lemmas -/

theorem isDigitChar_digitChar {d : Nat} (h : d < 10) :
    isDigitChar (digitChar d) = true := by
  interval_cases d <;> decide

theorem charDigit_digitChar {d : Nat} (h : d < 10) :
    charDigit (digitChar d) = d := by
  interval_cases d <;> decide

theorem natChars_ne_nil (n : Nat) : natChars n ≠ [] := by
  unfold natChars
  split_ifs with h
  · simp
  · simp [Nat.digits_ne_nil_iff_ne_zero, h]

theorem natChars_digits (n : Nat) : ∀ c ∈ natChars n, isDigitChar c = true := by
  intro c hc
  unfold natChars at hc
  split_ifs at hc with h
  · simp at hc; subst hc; decide
  · simp only [List.mem_reverse, List.mem_map] at hc
    obtain ⟨d, hd, rfl⟩ := hc
    exact isDigitChar_digitChar (Nat.digits_lt_base (by norm_num) hd)

theorem foldr_charDigit (ds : List Nat) (hds : ∀ d ∈ ds, d < 10) :
    List.foldr (fun d a => a * 10 + charDigit (digitChar d)) 0 ds
      = Nat.ofDigits 10 ds := by
  induction ds with
  | nil => simp [Nat.ofDigits_nil]
  | cons d ds ih =>
    simp only [List.foldr_cons, Nat.ofDigits_cons]
    rw [charDigit_digitChar (hds d (by simp)),
      ih (fun x hx => hds x (by simp [hx]))]
    ring

theorem digitsToNat_natChars (n : Nat) : digitsToNat (natChars n) = n := by
  unfold digitsToNat natChars
  split_ifs with h
  · subst h; decide
  · rw [List.foldl_reverse, List.foldr_map]
    rw [foldr_charDigit _ (fun d hd => Nat.digits_lt_base (by norm_num) hd)]
    exact Nat.ofDigits_digits 10 n

/-! ## Parser round-trip lemmas -/

theorem takeWhile_digits_append (l rest : List Char)
    (hl : ∀ c ∈ l, isDigitChar c = true) (hr : headNonDigit rest = true) :
    (l ++ rest).takeWhile isDigitChar = l
      ∧ (l ++ rest).dropWhile isDigitChar = rest := by
  induction l with
  | nil =>
    cases rest with
    | nil => simp
    | cons c cs =>
      simp only [headNonDigit, Bool.not_eq_true'] at hr
      simp [List.takeWhile_cons, List.dropWhile_cons, hr]
  | cons c cs ih =>
    have hc := hl c (List.mem_cons_self c cs)
    have h2 := ih (fun x hx => hl x (List.mem_cons_of_mem c hx))
    simp [List.takeWhile_cons, List.dropWhile_cons, hc, h2.1, h2.2]

theorem parseNum_round (i : Int) (rest : List Char)
    (hr : headNonDigit rest = true) :
    parseNum (intChars i ++ rest) = some (i, rest) := by
  have hdig := natChars_digits i.natAbs
  have hne := natChars_ne_nil i.natAbs
  have htd := takeWhile_digits_append (natChars i.natAbs) rest hdig hr
  have hemp : ((natChars i.natAbs ++ rest).takeWhile isDigitChar).isEmpty = false := by
    rw [htd.1]
    cases hcons : natChars i.natAbs with
    | nil => exact absurd hcons hne
    | cons d ds => rfl
  by_cases hi : i < 0
  · rw [intChars, if_pos hi, List.cons_append]
    rw [parseNum, if_pos rfl, if_neg (by rw [hemp]; exact Bool.false_ne_true)]
    rw [htd.1, htd.2, digitsToNat_natChars]
    have : -(i.natAbs : Int) = i := by omega
    rw [this]
  · cases hcons : natChars i.natAbs with
    | nil => exact absurd hcons hne
    | cons d ds =>
      have hd : isDigitChar d = true := hdig d (hcons ▸ List.mem_cons_self _ _)
      have hdm : d ≠ '-' := by
        intro he; rw [he] at hd; exact absurd hd (by decide)
      rw [intChars, if_neg hi, hcons, List.cons_append, parseNum, if_neg hdm]
      rw [show d :: (ds ++ rest) = natChars i.natAbs ++ rest by
        rw [hcons, List.cons_append]]
      rw [if_neg (by rw [hemp]; exact Bool.false_ne_true)]
      rw [htd.1, htd.2, digitsToNat_natChars]
      have : (i.natAbs : Int) = i := by omega
      rw [this]

theorem parseStrBody_round (cs rest : List Char) :
    parseStrBody (jsonEscape cs ++ '"' :: rest) = some (cs, rest) := by
  induction cs with
  | nil =>
    rw [jsonEscape, List.nil_append, parseStrBody.eq_def]
    simp
  | cons c cs ih =>
    by_cases hc : c = '"' ∨ c = '\\'
    · rw [jsonEscape, if_pos hc, List.cons_append, List.cons_append,
        parseStrBody.eq_def]
      simp [ih]
    · push_neg at hc
      rw [jsonEscape, if_neg (by push_neg; exact hc), List.cons_append,
        parseStrBody.eq_def]
      simp [ih, hc.1, hc.2]

theorem expectChars_round (ts rest : List Char) :
    expectChars ts (ts ++ rest) = some rest := by
  induction ts with
  | nil => simp [expectChars]
  | cons t ts ih => simp [expectChars, ih]

theorem intChars_head (i : Int) :
    ∃ c cs, intChars i = c :: cs ∧ (isDigitChar c || c = '-') = true := by
  by_cases hi : i < 0
  · exact ⟨'-', natChars i.natAbs, by rw [intChars, if_pos hi], by decide⟩
  · cases hcons : natChars i.natAbs with
    | nil => exact absurd hcons (natChars_ne_nil _)
    | cons d ds =>
      refine ⟨d, ds, by rw [intChars, if_neg hi, hcons], ?_⟩
      have hd := natChars_digits i.natAbs d (hcons ▸ List.mem_cons_self _ _)
      simp [hd]

theorem parseJVal_round (v : JVal) (rest : List Char)
    (hr : headNonDigit rest = true) :
    parseJVal (dumpJVal v ++ rest) = some (v, rest) := by
  cases v with
  | null =>
    rw [dumpJVal]
    simp only [List.cons_append, List.nil_append]
    rw [parseJVal.eq_def]
    simp only [if_neg (by decide : ¬((isDigitChar 'n' || 'n' = '-') = true)),
      if_neg (by decide : ¬('n' = '"')), if_pos rfl]
    rw [show ('u' :: 'l' :: 'l' :: rest : List Char) = ['u', 'l', 'l'] ++ rest
      from rfl, expectChars_round]
    rfl
  | boolean b =>
    cases b with
    | true =>
      rw [dumpJVal]
      simp only [List.cons_append, List.nil_append]
      rw [parseJVal.eq_def]
      simp only [if_neg (by decide : ¬((isDigitChar 't' || 't' = '-') = true)),
        if_neg (by decide : ¬('t' = '"')), if_neg (by decide : ¬('t' = 'n')),
        if_pos rfl]
      rw [show ('r' :: 'u' :: 'e' :: rest : List Char) = ['r', 'u', 'e'] ++ rest
        from rfl, expectChars_round]
      rfl
    | false =>
      rw [dumpJVal]
      simp only [List.cons_append, List.nil_append]
      rw [parseJVal.eq_def]
      simp only [if_neg (by decide : ¬((isDigitChar 'f' || 'f' = '-') = true)),
        if_neg (by decide : ¬('f' = '"')), if_neg (by decide : ¬('f' = 'n')),
        if_neg (by decide : ¬('f' = 't')), if_pos rfl]
      rw [show ('a' :: 'l' :: 's' :: 'e' :: rest : List Char)
          = ['a', 'l', 's', 'e'] ++ rest from rfl, expectChars_round]
      rfl
  | num n =>
    obtain ⟨c, cs, hic, hguard⟩ := intChars_head n
    rw [dumpJVal, hic, List.cons_append, parseJVal.eq_def]
    simp only [hguard, if_pos]
    rw [show (c :: (cs ++ rest) : List Char) = intChars n ++ rest by
      rw [hic, List.cons_append]]
    rw [parseNum_round n rest hr]
    rfl
  | str s =>
    rw [dumpJVal, List.cons_append, List.append_assoc, List.cons_append,
      List.nil_append, parseJVal.eq_def]
    simp only [if_neg (by decide : ¬((isDigitChar '"' || '"' = '-') = true)),
      if_pos rfl]
    rw [parseStrBody_round]
    rfl

theorem parsePairEntry_round (kv : String × JVal) (rest : List Char)
    (hr : headNonDigit rest = true) :
    parsePairEntry (dumpPairEntry kv ++ rest) = some (kv, rest) := by
  obtain ⟨k, v⟩ := kv
  rw [dumpPairEntry]
  simp only [List.cons_append, List.append_assoc, List.nil_append]
  rw [parsePairEntry, parseJString]
  simp only [if_pos rfl]
  have hex : ∀ X : List Char, expectChars [':', ' '] (':' :: ' ' :: X) = some X := by
    intro X; simp [expectChars]
  rw [parseStrBody_round]
  simp [hex, parseJVal_round v rest hr]

theorem headNonDigit_pairsTail (kvs : List (String × JVal)) (rest : List Char) :
    headNonDigit (dumpPairsTail kvs ++ '\x7d' :: rest) = true := by
  cases kvs with
  | nil => rfl
  | cons kv kvs => rfl

theorem dumpPairsTail_length (kvs : List (String × JVal)) :
    kvs.length ≤ (dumpPairsTail kvs).length := by
  induction kvs with
  | nil => simp [dumpPairsTail]
  | cons kv kvs ih => simp [dumpPairsTail]; omega

theorem parsePairsLoop_round (kvs : List (String × JVal)) :
    ∀ fuel rest, kvs.length < fuel →
      parsePairsLoop fuel (dumpPairsTail kvs ++ '\x7d' :: rest)
        = some (kvs, rest) := by
  induction kvs with
  | nil =>
    intro fuel rest hf
    cases fuel with
    | zero => omega
    | succ f => rw [dumpPairsTail, List.nil_append, parsePairsLoop.eq_def]; simp
  | cons kv kvs ih =>
    intro fuel rest hf
    cases fuel with
    | zero => omega
    | succ f =>
      have hb : kvs.length < f := by
        simp only [List.length_cons] at hf; omega
      rw [dumpPairsTail]
      simp only [List.cons_append, List.append_assoc]
      rw [parsePairsLoop.eq_def]
      simp [parsePairEntry_round kv (dumpPairsTail kvs ++ '\x7d' :: rest)
        (headNonDigit_pairsTail kvs rest), ih f rest hb]

theorem dumpRecordChars_head (r : Record) :
    ∃ E, dumpRecordChars r = '\x7b' :: E := by
  cases r with
  | nil => exact ⟨_, rfl⟩
  | cons kv kvs => exact ⟨_, rfl⟩

theorem parseRecordChars_round (r : Record) (rest : List Char) :
    parseRecordChars (dumpRecordChars r ++ rest) = some (r, rest) := by
  cases r with
  | nil =>
    rw [dumpRecordChars]
    simp only [List.cons_append, List.nil_append]
    rw [parseRecordChars.eq_def]
    simp
  | cons kv kvs =>
    obtain ⟨E, hE⟩ : ∃ E, dumpPairEntry kv = '"' :: E := ⟨_, rfl⟩
    have hb : kvs.length < (dumpPairsTail kvs ++ '\x7d' :: rest).length + 1 := by
      have := dumpPairsTail_length kvs
      simp only [List.length_append, List.length_cons]
      omega
    rw [dumpRecordChars, hE]
    simp only [List.cons_append, List.append_assoc, List.nil_append]
    rw [parseRecordChars.eq_def]
    simp
    rw [show ('"' :: (E ++ (dumpPairsTail kvs ++ '\x7d' :: rest)) : List Char)
      = dumpPairEntry kv ++ (dumpPairsTail kvs ++ '\x7d' :: rest) from by
        rw [hE, List.cons_append]]
    rw [parsePairEntry_round kv (dumpPairsTail kvs ++ '\x7d' :: rest)
      (headNonDigit_pairsTail kvs rest)]
    simp only [parsePairsLoop_round kvs
      ((dumpPairsTail kvs ++ '\x7d' :: rest).length + 1) rest hb,
      Option.map_some']

theorem dumpRecordsTail_length (rs : List Record) :
    rs.length ≤ (dumpRecordsTail rs).length := by
  induction rs with
  | nil => simp [dumpRecordsTail]
  | cons r rs ih => simp [dumpRecordsTail]; omega

theorem parseRecordsLoop_round (rs : List Record) :
    ∀ fuel rest, rs.length < fuel →
      parseRecordsLoop fuel (dumpRecordsTail rs ++ ']' :: rest)
        = some (rs, rest) := by
  induction rs with
  | nil =>
    intro fuel rest hf
    cases fuel with
    | zero => omega
    | succ f => rw [dumpRecordsTail, List.nil_append, parseRecordsLoop.eq_def]; simp
  | cons r rs ih =>
    intro fuel rest hf
    cases fuel with
    | zero => omega
    | succ f =>
      have hb : rs.length < f := by
        simp only [List.length_cons] at hf; omega
      rw [dumpRecordsTail]
      simp only [List.cons_append, List.append_assoc]
      rw [parseRecordsLoop.eq_def]
      simp [parseRecordChars_round r (dumpRecordsTail rs ++ ']' :: rest),
        ih f rest hb]

theorem parseRecordsChars_round (rs : List Record) :
    parseRecordsChars (dumpRecordsChars rs) = some (rs, []) := by
  cases rs with
  | nil => rw [dumpRecordsChars, parseRecordsChars.eq_def]; simp
  | cons r rest =>
    obtain ⟨E, hE⟩ := dumpRecordChars_head r
    have hb : rest.length < (dumpRecordsTail rest ++ ']' :: []).length + 1 := by
      have := dumpRecordsTail_length rest
      simp only [List.length_append, List.length_cons, List.length_nil]
      omega
    rw [dumpRecordsChars, hE]
    simp only [List.cons_append, List.append_assoc, List.nil_append]
    rw [parseRecordsChars.eq_def]
    simp
    rw [show ('\x7b' :: (E ++ (dumpRecordsTail rest ++ ']' :: [])) : List Char)
      = dumpRecordChars r ++ (dumpRecordsTail rest ++ ']' :: []) from by
        rw [hE, List.cons_append]]
    rw [parseRecordChars_round r (dumpRecordsTail rest ++ ']' :: [])]
    simp only [parseRecordsLoop_round rest
      ((dumpRecordsTail rest ++ ']' :: []).length + 1) [] hb,
      Option.map_some']

/-- C8: json formatting round-trips: the `json` format echoes
`json.dumps(response_data)`, and parsing that string back yields exactly
the input record sequence — record order and each record's field order
preserved — with no input left over.  (Values here are already scalars;
the spec's parenthetical about date objects rendering as ISO-8601 strings
concerns a value kind that does not occur in a parsed JSON envelope.) -/
theorem json_output_round_trips (rs : List Record) :
    format_and_print rs "json" = some (.text (dumpRecords rs))
      ∧ parseRecords (dumpRecords rs) = some (rs, []) :=
  ⟨rfl, parseRecordsChars_round rs⟩

/-! ## Formatter dispatch: unknown formats and the pretty special case -/

/-- C1 counterexample: at the format value "xml" — not one of json, csv,
pretty — `format_and_print` silently does nothing: the if/elif chain has
no else branch, so it raises no `UnsupportedFormatError` (no such error
exists in the code) and echoes no output at all. -/
theorem unknown_format_silently_ignored :
    format_and_print [[("a", JVal.str "x")]] "xml" = none := by decide

/-- C1 amended: for every record sequence and every format value that is
not one of "json", "csv", "pretty", `format_and_print` raises no error
and produces no output: the call falls through the if/elif chain and
returns having echoed nothing. -/
theorem unknown_format_no_output (rs : List Record) (format : String)
    (h1 : format ≠ "json") (h2 : format ≠ "csv") (h3 : format ≠ "pretty") :
    format_and_print rs format = none := by
  rw [format_and_print, if_neg h1, if_neg h2, if_neg h3]

/-- Witness for the amended C1 at the concrete format value "yaml". -/
theorem unknown_format_no_output_witness :
    format_and_print [] "yaml" = none :=
  unknown_format_no_output [] "yaml" (by decide) (by decide) (by decide)

/-- C7: for a record sequence of exactly one record, the pretty format
echoes the transposed table: tabulate is called with the record's
(key, value) pairs as the rows — field order preserved — under the
headers ["key", "value"]; it is never the general one-row-per-record
dict table. -/
theorem pretty_single_record_transposed (rs : List Record) (r : Record)
    (h : rs = [r]) :
    format_and_print rs "pretty" = some (.tabulatePairs r ["key", "value"])
      ∧ ∀ q, format_and_print rs "pretty" ≠ some (.tabulateDicts q) := by
  subst h
  refine ⟨rfl, fun q hq => ?_⟩
  rw [show format_and_print [r] "pretty"
    = some (.tabulatePairs r ["key", "value"]) from rfl] at hq
  exact Echoed.noConfusion (Option.some.inj hq)

/-- Witness for C7 at a concrete one-record sequence. -/
theorem pretty_single_record_transposed_witness :
    format_and_print [[("slug", JVal.str "gdp")]] "pretty"
        = some (.tabulatePairs [("slug", JVal.str "gdp")] ["key", "value"])
      ∧ ∀ q, format_and_print [[("slug", JVal.str "gdp")]] "pretty"
        ≠ some (.tabulateDicts q) :=
  pretty_single_record_transposed _ _ rfl

/-! ## Façade behavior -/

/-- C9: for every transport and every argument list,
`get_metric_observations` fails with `NameError` on the unbound name
`metric` — the first name its params dict expression resolves — and
issues no request at all, so it never returns observations. -/
theorem observations_always_name_error (t : Transport) (series : List String)
    (observation_type : String) (limit offset : Int)
    (order_by sort_order : String) (expanded : Bool)
    (start_date end_date : Option String) :
    get_metric_observations t series observation_type limit offset order_by
        sort_order expanded start_date end_date
      = (.error (.nameError "metric"), []) := rfl

/-- C4 counterexample: the empty-string credential is not rejected: the
standalone validator accepts it outright, and the jstdata validator lets
it through the missing-credential check and constructs the client once
the heartbeat answers ok — no `CredentialMissingError` in either case. -/
theorem empty_credential_passes :
    validate_api_key (some "") = .ok ()
      ∧ (validate_api_key_jst
          (constTransport 200 (Json.obj [("status", Json.str "ok")]))
          (some "")).1 = .ok () :=
  ⟨rfl, rfl⟩

/-- C4 amended: construction fails with `ApiKeyNotSetError` (the code's
CredentialMissingError) exactly when the credential is absent (`None`);
every present string — the empty string included — passes the
missing-credential check (the jstdata variant then runs the heartbeat
liveness check, which can fail otherwise but never with
`ApiKeyNotSetError`). -/
theorem credential_check_rejects_none_only (k : Option String) :
    (validate_api_key k = .error .apiKeyNotSetError ↔ k = none)
      ∧ (∀ s, k = some s → validate_api_key k = .ok ())
      ∧ (∀ t s, k = some s →
          (validate_api_key_jst t k).1 ≠ .error .apiKeyNotSetError) := by
  refine ⟨⟨fun h => ?_, fun h => ?_⟩, fun s h => ?_, fun t s h hcon => ?_⟩
  · cases k with
    | none => rfl
    | some s => exact absurd h (by simp [validate_api_key])
  · subst h; rfl
  · subst h; rfl
  · subst h
    unfold validate_api_key_jst make_request at hcon
    simp only at hcon
    cases ht : t "heartbeat" [] with
    | failure => rw [ht] at hcon; simp at hcon
    | response st body =>
      rw [ht] at hcon
      by_cases hst : 400 ≤ st ∧ st < 600
      · simp [hst] at hcon
      · simp only [if_neg hst] at hcon
        unfold pyIndex at hcon
        cases body with
        | obj fields =>
          cases hl : fields.lookup "status" with
          | none => simp [hl] at hcon
          | some v =>
            simp only [hl] at hcon
            cases v with
            | str s => by_cases hs : s = "ok" <;> simp [hs] at hcon
            | null => simp at hcon
            | boolean b => simp at hcon
            | num n => simp at hcon
            | arr items => simp at hcon
            | obj fs => simp at hcon
        | null => simp at hcon
        | boolean b => simp at hcon
        | num n => simp at hcon
        | str s => simp at hcon
        | arr items => simp at hcon

/-- Witness for the amended C4 at the concrete credential "abc". -/
theorem credential_check_rejects_none_only_witness :
    validate_api_key (some "abc") = .ok () :=
  (credential_check_rejects_none_only (some "abc")).2.1 "abc" rfl

/-- C3 counterexample: a 404 response to `get_metrics` escapes as the raw
`HTTPError` — `get_metrics` has no try/except — and not as the
`InvalidInputError` the claim promises for every façade operation. -/
theorem get_metrics_raw_http_error :
    (get_metrics (constTransport 404 Json.null) 10000 0
        "last_updated" "desc").1 = .error (.httpError 404 "metric")
      ∧ (Except.error (.httpError 404 "metric") : Except PyErr Json)
        ≠ .error (.invalidInputError 404 "metric") :=
  ⟨rfl, fun h => absurd (Except.error.inj h) (by decide)⟩

/-- C3 amended: the claimed wrapping holds for `get_metric_series` and
`get_countries`: every 4xx/5xx provider response makes them fail with
`InvalidInputError` carrying the status and endpoint; `get_metrics`
however lets the raw `HTTPError` escape, and `get_metric_observations`
fails with `NameError` before any request (see C9). -/
theorem series_countries_wrap_http_errors (st : Nat) (body : Json)
    (metric : String) (limit offset : Int) (order_by sort_order : String)
    (h4 : 400 ≤ st) (h6 : st < 600) :
    (get_metric_series (constTransport st body) metric limit offset
        order_by sort_order).1
      = .error (.invalidInputError st "metric/series")
      ∧ (get_countries (constTransport st body) limit offset sort_order).1
        = .error (.invalidInputError st "reference/geo/countries")
      ∧ (get_metrics (constTransport st body) limit offset
          order_by sort_order).1 = .error (.httpError st "metric") := by
  have hif : (400 ≤ st ∧ st < 600) := ⟨h4, h6⟩
  refine ⟨?_, ?_, ?_⟩ <;>
    simp [get_metric_series, get_countries, get_metrics, make_request,
      constTransport, catchHttp, hif, Except.bind]

/-- Witness for the amended C3 at a concrete 404 response. -/
theorem series_countries_wrap_http_errors_witness :
    (400 ≤ 404 ∧ 404 < 600)
      ∧ (get_metric_series (constTransport 404 Json.null) "gdp" 10000 0
          "last_updated" "asc").1
        = .error (.invalidInputError 404 "metric/series") :=
  ⟨⟨by decide, by decide⟩,
    (series_countries_wrap_http_errors 404 Json.null "gdp" 10000 0
      "last_updated" "asc" (by decide) (by decide)).1⟩

/-- C5 counterexample: a fully well-formed success — status 200, envelope
carrying a "records" field — still does not make `get_metric_observations`
return that records value: it fails with `NameError` first, so "each
façade operation returns the records field on success" fails for it. -/
theorem observations_success_still_fails :
    (get_metric_observations
        (constTransport 200 (Json.obj [("records", Json.arr [])]))
        ["s1"] "latest" 10000 0 "id" "asc" false none none).1
      = .error (.nameError "metric")
      ∧ (Except.error (.nameError "metric") : Except PyErr Json)
        ≠ .ok (Json.arr []) :=
  ⟨rfl, fun h => Except.noConfusion h⟩

/-- C5 amended: for the operations that reach the request — `get_metrics`,
`get_metric_series`, `get_countries` — every successful (non-4xx/5xx)
response yields exactly the envelope's "records" value, unmodified and in
the order received; an envelope lacking a "records" field makes them fail
with the subscript's `KeyError` (the code's realization of
`MalformedResponseError`); `get_metric_observations` never gets that far,
failing with `NameError`. -/
theorem records_extracted_verbatim (st : Nat) (fields : List (String × Json))
    (metric : String) (limit offset : Int) (order_by sort_order : String)
    (hok : st < 400) :
    (∀ recs, fields.lookup "records" = some recs →
      (get_metrics (constTransport st (.obj fields)) limit offset order_by
          sort_order).1 = .ok recs
      ∧ (get_metric_series (constTransport st (.obj fields)) metric limit
          offset order_by sort_order).1 = .ok recs
      ∧ (get_countries (constTransport st (.obj fields)) limit offset
          sort_order).1 = .ok recs)
    ∧ (fields.lookup "records" = none →
      (get_metrics (constTransport st (.obj fields)) limit offset order_by
          sort_order).1 = .error (.keyError "records")
      ∧ (get_metric_series (constTransport st (.obj fields)) metric limit
          offset order_by sort_order).1 = .error (.keyError "records")
      ∧ (get_countries (constTransport st (.obj fields)) limit offset
          sort_order).1 = .error (.keyError "records")) := by
  have hif : ¬(400 ≤ st ∧ st < 600) := fun hc => absurd hok (by omega)
  constructor
  · intro recs hrec
    refine ⟨?_, ?_, ?_⟩ <;>
      simp [get_metrics, get_metric_series, get_countries, make_request,
        constTransport, catchHttp, hif, pyIndex, hrec, Except.bind]
  · intro hrec
    refine ⟨?_, ?_, ?_⟩ <;>
      simp [get_metrics, get_metric_series, get_countries, make_request,
        constTransport, catchHttp, hif, pyIndex, hrec, Except.bind]

/-- Witness for the amended C5 at a concrete 200 response whose envelope
holds an empty records array. -/
theorem records_extracted_verbatim_witness :
    (200 < 400)
      ∧ (get_metrics (constTransport 200 (.obj [("records", Json.arr [])]))
          10000 0 "last_updated" "desc").1 = .ok (Json.arr []) :=
  ⟨by decide,
    ((records_extracted_verbatim 200 [("records", Json.arr [])] "m" 10000 0
      "last_updated" "desc" (by decide)).1 (Json.arr []) rfl).1⟩

/-! ## CSV: the first-record-schema claim versus pandas -/

/-- C2 counterexample: with first record `a: x` and second record
`a: y, b: z`, the CSV built through `pd.DataFrame` has header "a,b" — not
the first record's keys alone — and the second record's extra value "z"
appears in the output instead of being dropped; the output differs from
the first-record-schema CSV the claim describes. -/
theorem csv_extra_key_not_dropped :
    df_to_csv_string
        [[("a", JVal.str "x")], [("a", JVal.str "y"), ("b", JVal.str "z")]]
      = "a,b\nx,\ny,z\n"
      ∧ csv_first_record_schema
          [[("a", JVal.str "x")], [("a", JVal.str "y"), ("b", JVal.str "z")]]
        = "a\nx\ny\n"
      ∧ ("a,b\nx,\ny,z\n" : String) ≠ "a\nx\ny\n" :=
  ⟨by decide, by decide, by decide⟩

theorem insertKey_mem (cols : List String) (k : String) :
    k ∈ insertKey cols k := by
  unfold insertKey
  split_ifs with h
  · exact h
  · simp

theorem foldl_insertKey_extends (ks : List String) :
    ∀ acc, ∃ ext, List.foldl insertKey acc ks = acc ++ ext := by
  induction ks with
  | nil => exact fun acc => ⟨[], by simp⟩
  | cons k ks ih =>
    intro acc
    rw [List.foldl_cons]
    by_cases h : k ∈ acc
    · obtain ⟨ext, he⟩ := ih (insertKey acc k)
      rw [he, insertKey, if_pos h]
      exact ⟨ext, rfl⟩
    · obtain ⟨ext, he⟩ := ih (insertKey acc k)
      rw [he, insertKey, if_neg h, List.append_assoc]
      exact ⟨[k] ++ ext, rfl⟩

theorem pandasFold_extends (rs : List Record) :
    ∀ acc, ∃ ext,
      List.foldl (fun cols r => (recordKeys r).foldl insertKey cols) acc rs
        = acc ++ ext := by
  induction rs with
  | nil => exact fun acc => ⟨[], by simp⟩
  | cons r rs ih =>
    intro acc
    rw [List.foldl_cons]
    obtain ⟨e1, h1⟩ := foldl_insertKey_extends (recordKeys r) acc
    obtain ⟨e2, h2⟩ := ih ((recordKeys r).foldl insertKey acc)
    rw [h2, h1, List.append_assoc]
    exact ⟨e1 ++ e2, rfl⟩

theorem foldl_insertKey_fresh (ks : List String) :
    ∀ acc, (∀ k ∈ ks, k ∉ acc) → ks.Nodup →
      List.foldl insertKey acc ks = acc ++ ks := by
  induction ks with
  | nil => intro acc _ _; simp
  | cons k ks ih =>
    intro acc hfresh hnd
    have hfr : ∀ x ∈ ks, x ∉ acc ++ [k] := by
      intro x hx
      simp only [List.mem_append, List.mem_singleton]
      push_neg
      exact ⟨hfresh x (List.mem_cons_of_mem _ hx),
        fun he => (List.nodup_cons.1 hnd).1 (he ▸ hx)⟩
    rw [List.foldl_cons, insertKey, if_neg (hfresh k (List.mem_cons_self _ _)),
      ih (acc ++ [k]) hfr (List.nodup_cons.1 hnd).2, List.append_assoc]
    rfl

theorem mem_foldl_insertKey (ks : List String) :
    ∀ acc k, k ∈ ks → k ∈ List.foldl insertKey acc ks := by
  induction ks with
  | nil => intro acc k h; simp at h
  | cons a ks ih =>
    intro acc k hk
    rw [List.foldl_cons]
    rcases List.mem_cons.1 hk with rfl | h
    · obtain ⟨ext, he⟩ := foldl_insertKey_extends ks (insertKey acc k)
      rw [he]
      exact List.mem_append.2 (Or.inl (insertKey_mem acc k))
    · exact ih (insertKey acc a) k h

theorem mem_pandasFold (rs : List Record) :
    ∀ acc q, q ∈ rs → ∀ kv ∈ q, kv.1 ∈
      List.foldl (fun cols r => (recordKeys r).foldl insertKey cols) acc rs := by
  induction rs with
  | nil => intro acc q hq; simp at hq
  | cons r rs ih =>
    intro acc q hq kv hkv
    rw [List.foldl_cons]
    rcases List.mem_cons.1 hq with rfl | h
    · obtain ⟨ext, he⟩ := pandasFold_extends rs ((recordKeys q).foldl insertKey acc)
      rw [he]
      refine List.mem_append.2 (Or.inl ?_)
      exact mem_foldl_insertKey (recordKeys q) acc kv.1
        (List.mem_map.2 ⟨kv, hkv, rfl⟩)
    · exact ih _ q h kv hkv

theorem lookup_of_mem_nodup :
    ∀ (q : Record), (recordKeys q).Nodup →
      ∀ kv ∈ q, q.lookup kv.1 = some kv.2 := by
  intro q
  induction q with
  | nil => intro _ kv h; simp at h
  | cons ab q ih =>
    intro hnd kv hkv
    obtain ⟨a, b⟩ := ab
    have hrk : recordKeys ((a, b) :: q) = a :: recordKeys q := rfl
    rw [hrk, List.nodup_cons] at hnd
    rcases List.mem_cons.1 hkv with rfl | h
    · simp [List.lookup]
    · have hne : (kv.1 == a) = false := by
        refine beq_eq_false_iff_ne.2 fun he => ?_
        exact hnd.1 (he ▸ List.mem_map.2 ⟨kv, h, rfl⟩)
      rw [List.lookup, hne]
      exact ih hnd.2 kv h

/-- C2 amended: `pd.DataFrame` does not cut the table down to the first
record's schema: the header columns are the union of the records' keys in
order of first appearance — the first record's keys (distinct, as Python
dict keys are) form an initial segment, later records' extra keys follow.
Every key of every record owns a column; a record's row carries the
record's rendered value at that column's position — so a value under a
key absent from the first record is kept, not dropped — and a record
missing a column's key contributes an empty cell at that position. -/
theorem csv_columns_are_key_union (r : Record) (rs : List Record)
    (hnd : (recordKeys r).Nodup) :
    ((pandasColumns (r :: rs)).take (recordKeys r).length = recordKeys r)
    ∧ (∀ q ∈ r :: rs, ∀ kv ∈ q, kv.1 ∈ pandasColumns (r :: rs))
    ∧ (∀ q ∈ r :: rs, (recordKeys q).Nodup → ∀ kv ∈ q,
        (rowCells (pandasColumns (r :: rs)) q)[(pandasColumns
          (r :: rs)).indexOf kv.1]? = some (csvCell kv.2))
    ∧ (∀ q : Record, ∀ (i : Nat) (c : String),
        (pandasColumns (r :: rs))[i]? = some c →
        q.lookup c = none →
        (rowCells (pandasColumns (r :: rs)) q)[i]? = some "") := by
  have hbase : pandasColumns (r :: rs)
      = List.foldl (fun cols q => (recordKeys q).foldl insertKey cols)
        (recordKeys r) rs := by
    rw [pandasColumns, List.foldl_cons,
      foldl_insertKey_fresh (recordKeys r) [] (by simp) hnd]
    rfl
  have hmem : ∀ q ∈ r :: rs, ∀ kv ∈ q, kv.1 ∈ pandasColumns (r :: rs) := by
    intro q hq kv hkv
    exact mem_pandasFold (r :: rs) [] q hq kv hkv
  refine ⟨?_, hmem, ?_, ?_⟩
  · obtain ⟨ext, hext⟩ := pandasFold_extends rs (recordKeys r)
    rw [hbase, hext, List.take_left]
  · intro q hq hqnd kv hkv
    have hk : kv.1 ∈ pandasColumns (r :: rs) := hmem q hq kv hkv
    rw [rowCells, List.getElem?_map, List.getElem?_indexOf hk]
    simp [lookup_of_mem_nodup q hqnd kv hkv]
  · intro q i c hc hnone
    rw [rowCells, List.getElem?_map, hc]
    simp [hnone]

/-- Witness for the amended C2 at the counterexample's records: the first
record's key list ["a"] is an initial segment of the columns. -/
theorem csv_columns_are_key_union_witness :
    (pandasColumns [[("a", JVal.str "x")],
        [("a", JVal.str "y"), ("b", JVal.str "z")]]).take
        (recordKeys [("a", JVal.str "x")]).length
      = recordKeys [("a", JVal.str "x")] :=
  (csv_columns_are_key_union [("a", JVal.str "x")]
    [[("a", JVal.str "y"), ("b", JVal.str "z")]] (by decide)).1

end JST
